import Mathlib

/-!
Shallow embedding of the service-orchestration layer of the statsd daemon
(`src/statsd/src/StatsService.cpp` / `StatsService.h`), covering remote-call
admission control (uid / security-label checks), the config-keyed RPC surface,
the report transport over a file descriptor, the log-ingestion loop shutdown
handshake, the deferred init-completion callback, and the shell command
argument parsing.  Machine integers are modelled as `Int`/`Nat` with explicit
truncation where the C code casts; fallible operations return a `Status`
value mirroring `ndk::ScopedAStatus`; externally performed effects (config
installation, event dispatch, bytes written to a descriptor) are returned as
explicit components of each function result.
-/

namespace StatsdModel

/-- Android identity constant for the root user, from the platform header
`android_filesystem_config.h` (external to this repository). -/
def AID_ROOT : Nat := 0

/-- Android identity constant for the system server uid, from
`android_filesystem_config.h`. -/
def AID_SYSTEM : Nat := 1000

/-- Android identity constant for the shell uid, from
`android_filesystem_config.h`. -/
def AID_SHELL : Nat := 2000

/-- Binder exception code `EX_SECURITY` (platform `Status.h`). -/
def EX_SECURITY : Int := -1

/-- Binder exception code `EX_ILLEGAL_ARGUMENT` (platform `Status.h`). -/
def EX_ILLEGAL_ARGUMENT : Int := -3

/-- Binder exception code `EX_NULL_POINTER` (platform `Status.h`). -/
def EX_NULL_POINTER : Int := -4

/-- Binder exception code `EX_ILLEGAL_STATE` (platform `Status.h`). -/
def EX_ILLEGAL_STATE : Int := -5

/-- `status_t` success value `NO_ERROR` (platform `Errors.h`). -/
def NO_ERROR : Int := 0

/-- `status_t` generic failure value `UNKNOWN_ERROR` (platform `Errors.h`). -/
def UNKNOWN_ERROR : Int := -2147483648

/-- The trusted tracing security label, `kTracedProbesSid` in
`StatsService.cpp`. -/
def kTracedProbesSid : String := "u:r:traced_probes:s0"

/-- Precondition token `kBootCompleteTag` (`StatsService.h`). -/
def kBootCompleteTag : String := "BOOT_COMPLETE"

/-- Precondition token `kUidMapReceivedTag` (`StatsService.h`). -/
def kUidMapReceivedTag : String := "UID_MAP"

/-- Precondition token `kAllPullersRegisteredTag` (`StatsService.h`). -/
def kAllPullersRegisteredTag : String := "PULLERS_REGISTERED"

/-- Result of a binder RPC, mirroring `ndk::ScopedAStatus`: either ok or an
exception with a code and a human-readable message (built by the local
`exception` helper in `StatsService.cpp`). -/
inductive Status where
  | ok : Status
  | ex (code : Int) (msg : String) : Status
deriving DecidableEq, Repr

/-- Whether a `Status` is a security exception. -/
def Status.isSecurityError : Status → Bool
  | Status.ex code _ => code == EX_SECURITY
  | Status.ok => false

/-- `ConfigKey` from `config/ConfigKey.h`: (owner uid, 64-bit config id). -/
structure ConfigKey where
  uid : Int
  id : Int
deriving DecidableEq, Repr

/-- `checkUid` (`StatsService.cpp:81`): the caller passes when its transport
uid equals the expected uid or is root; otherwise a security exception
carrying the actual and expected uid is returned. -/
def checkUid (callingUid : Nat) (expectedUid : Nat) : Status :=
  if callingUid = expectedUid ∨ callingUid = AID_ROOT then
    Status.ok
  else
    Status.ex EX_SECURITY (s!"UID {callingUid} is not expected UID {expectedUid}")

/-- `checkSid` (`StatsService.cpp:98`): root passes unconditionally; otherwise
the caller passes exactly when a security label was obtained from the
transport and it equals the expected label by exact string comparison.  A
missing label (`nullptr`) is modelled as `none`. -/
def checkSid (callingUid : Nat) (callingSid : Option String) (expectedSid : String) : Status :=
  if callingUid = AID_ROOT then
    Status.ok
  else
    match callingSid with
    | some sid =>
        if expectedSid = sid then Status.ok
        else Status.ex EX_SECURITY (s!"SID \x27{sid}\x27 is not expected SID \x27{expectedSid}\x27")
    | none => Status.ex EX_SECURITY (s!"SID null is not expected SID \x27{expectedSid}\x27")

/-- Abstract stand-in for the external protobuf message `StatsdConfig`; a
default-constructed config is `defaultStatsdConfig`. -/
structure StatsdConfigModel where
  raw : List Nat
deriving DecidableEq, Repr

/-- The default-constructed (empty) `StatsdConfig`. -/
def defaultStatsdConfig : StatsdConfigModel := ⟨[]⟩

/-- `StatsService::getDataChecked` (`StatsService.cpp:1204`): the config key
handed to `onDumpReport` is `ConfigKey(callingUid, key)`, built from the
`callingUid` argument of the RPC. -/
def getDataChecked_key (key : Int) (callingUid : Int) : ConfigKey :=
  ⟨callingUid, key⟩

/-- `StatsService::getData` (`StatsService.cpp:1171`): enforce the system-uid
identity on the transport uid, then dump the report for
`ConfigKey(callingUid, key)`.  The second component is the config key used by
the operation (`none` when the call is rejected and no operation runs). -/
def getData (transportUid : Nat) (key : Int) (callingUid : Int) : Status × Option ConfigKey :=
  let st := checkUid transportUid AID_SYSTEM
  if st = Status.ok then
    (Status.ok, some (getDataChecked_key key callingUid))
  else
    (st, none)

/-- `StatsService::addConfigurationChecked` (`StatsService.cpp:1232`): builds
`ConfigKey(uid, key)`; for a non-empty byte vector the external protobuf parse
(abstracted as the `parse` argument) must succeed, and for an empty vector the
parse is skipped and the default-constructed config is used.  Returns the
(key, config) pair handed to `ConfigManager::UpdateConfig`, or `none` when the
parse failed and nothing was installed. -/
def addConfigurationChecked (parse : List Nat → Option StatsdConfigModel)
    (uid : Int) (key : Int) (config : List Nat) : Option (ConfigKey × StatsdConfigModel) :=
  if config.length > 0 then
    match parse config with
    | some cfg => some (⟨uid, key⟩, cfg)
    | none => none
  else
    some (⟨uid, key⟩, defaultStatsdConfig)

/-- `StatsService::addConfiguration` (`StatsService.cpp:1221`): enforce the
system-uid identity on the transport uid, then install via
`addConfigurationChecked(callingUid, key, config)`; a failed parse yields an
illegal-argument exception.  The second component is the installed
(key, config) pair, `none` when nothing was installed. -/
def addConfiguration (parse : List Nat → Option StatsdConfigModel) (transportUid : Nat)
    (key : Int) (config : List Nat) (callingUid : Int) :
    Status × Option (ConfigKey × StatsdConfigModel) :=
  let st := checkUid transportUid AID_SYSTEM
  if st = Status.ok then
    match addConfigurationChecked parse callingUid key config with
    | some installed => (Status.ok, some installed)
    | none => (Status.ex EX_ILLEGAL_ARGUMENT "Could not parse malformatted StatsdConfig.", none)
  else
    (st, none)

/-- `StatsService::removeConfiguration` (`StatsService.cpp:1288`): enforce the
system-uid identity, then remove `ConfigKey(callingUid, key)`.  The second
component is the key handed to `ConfigManager::RemoveConfig`. -/
def removeConfiguration (transportUid : Nat) (key : Int) (callingUid : Int) :
    Status × Option ConfigKey :=
  let st := checkUid transportUid AID_SYSTEM
  if st = Status.ok then
    (Status.ok, some (⟨callingUid, key⟩ : ConfigKey))
  else
    (st, none)

/-- `StatsService::setDataFetchOperation` (`StatsService.cpp:1252`): enforce
the system-uid identity, then register the receiver under
`ConfigKey(callingUid, key)`.  The second component is the key used. -/
def setDataFetchOperation (transportUid : Nat) (key : Int) (callingUid : Int) :
    Status × Option ConfigKey :=
  let st := checkUid transportUid AID_SYSTEM
  if st = Status.ok then
    (Status.ok, some (⟨callingUid, key⟩ : ConfigKey))
  else
    (st, none)

/-- `StatsService::setBroadcastSubscriber` (`StatsService.cpp:1296`): enforce
the system-uid identity, reject a null receiver, then register under
`ConfigKey(callingUid, configId)`.  The second component is the
(key, subscriber id) pair handed to `SubscriberReporter`. -/
def setBroadcastSubscriber (transportUid : Nat) (configId : Int) (subscriberId : Int)
    (pirIsNull : Bool) (callingUid : Int) : Status × Option (ConfigKey × Int) :=
  let st := checkUid transportUid AID_SYSTEM
  if st = Status.ok then
    if pirIsNull then
      (Status.ex EX_NULL_POINTER "setBroadcastSubscriber provided with null PendingIntentRef",
       none)
    else
      (Status.ok, some ((⟨callingUid, configId⟩ : ConfigKey), subscriberId))
  else
    (st, none)

/-- `StatsService::bootCompleted` (`StatsService.cpp:1103`): enforce the
system-uid identity, then mark the boot-complete precondition.  The second
component is the list of `markComplete` calls issued. -/
def bootCompleted (transportUid : Nat) : Status × List String :=
  let st := checkUid transportUid AID_SYSTEM
  if st = Status.ok then
    (Status.ok, [kBootCompleteTag])
  else
    (st, [])

/-- `StatsService::informAllUidData` (`StatsService.cpp:987`): enforce the
system-uid identity, then parse the descriptor contents (external protobuf
parse abstracted as the `parseOk` flag); on success update the uid map and
mark the uid-map precondition.  Components: status, whether the uid map was
updated, `markComplete` calls issued. -/
def informAllUidData (transportUid : Nat) (parseOk : Bool) : Status × Bool × List String :=
  let st := checkUid transportUid AID_SYSTEM
  if st = Status.ok then
    if parseOk then
      (Status.ok, true, [kUidMapReceivedTag])
    else
      (Status.ex EX_ILLEGAL_ARGUMENT "Error parsing proto stream for UidData.", false, [])
  else
    (st, false, [])

/-- Truncation to a signed 32-bit value, modelling the C cast
`static_cast<int32_t>` on an integer value. -/
def toInt32 (x : Int) : Int := (x + 2 ^ 31) % 2 ^ 32 - 2 ^ 31

/-- Reduction to an unsigned 32-bit value, modelling the C conversion of an
integer value to `uid_t` (a 32-bit unsigned type). -/
def toUInt32val (x : Int) : Int := x % 2 ^ 32

/-- Whether a character is C whitespace (`isspace` in the C locale). -/
def isSpaceChar (c : Char) : Bool :=
  c = ' ' ∨ c = '\t' ∨ c = '\n' ∨ c = '\r' ∨ c = '\x0b' ∨ c = '\x0c'

/-- Numeric value of a digit character for bases up to 16, `none` for a
non-digit. -/
def digitVal (c : Char) : Option Nat :=
  if '0' ≤ c ∧ c ≤ '9' then some (c.toNat - '0'.toNat)
  else if 'a' ≤ c ∧ c ≤ 'f' then some (c.toNat - 'a'.toNat + 10)
  else if 'A' ≤ c ∧ c ≤ 'F' then some (c.toNat - 'A'.toNat + 10)
  else none

/-- Consume the longest prefix of digits valid in `base`, accumulating their
value.  Returns (value, remaining characters, whether any digit was
consumed). -/
def readDigits (base : Nat) (acc : Nat) (seen : Bool) : List Char → Nat × List Char × Bool
  | [] => (acc, [], seen)
  | c :: cs =>
    match digitVal c with
    | some v => if v < base then readDigits base (base * acc + v) true cs else (acc, c :: cs, seen)
    | none => (acc, c :: cs, seen)

/-- Optional sign at the head of the character list: (negative, rest). -/
def readSign : List Char → Bool × List Char
  | '-' :: cs => (true, cs)
  | '+' :: cs => (false, cs)
  | cs => (false, cs)

/-- The C library `strtol` with base 0 (as called by
`StatsService::getUidFromString`): after optional whitespace and sign, a
`0x`/`0X` prefix followed by a hex digit selects base 16, a leading `0`
selects base 8, anything else base 10.  Returns the value and the remaining
characters (the `endptr` position); when no digits are consumed the whole
input is returned unconsumed.  Overflow clamping to `LONG_MAX` is not
modelled (the clamped and unclamped values are both rejected by the uid
range check downstream). -/
def strtol0 (str : List Char) : Int × List Char :=
  let s1 := str.dropWhile isSpaceChar
  let (neg, cs) := readSign s1
  let (v, rest, seen) :=
    match cs with
    | '0' :: x :: ds =>
      if x = 'x' ∨ x = 'X' then
        match ds with
        | d :: _ => if (digitVal d).isSome then readDigits 16 0 false ds else (0, x :: ds, true)
        | [] => (0, x :: ds, true)
      else
        readDigits 8 0 false ('0' :: x :: ds)
    | ds => readDigits 10 0 false ds
  if seen then ((if neg then -(v : Int) else (v : Int)), rest) else (0, str)

/-- The C library `strtol`/`strtoll` with base 10 (as used by `atoi` and by
the config-id parsing in `cmd_config` / `cmd_trigger_active_config_broadcast`).
Returns the value and the remaining characters; when no digits are consumed
the whole input is returned unconsumed. -/
def strtol10 (str : List Char) : Int × List Char :=
  let s1 := str.dropWhile isSpaceChar
  let (neg, cs) := readSign s1
  let (v, rest, seen) := readDigits 10 0 false cs
  if seen then ((if neg then -(v : Int) else (v : Int)), rest) else (0, str)

/-- The C library `atoi`, i.e. `(int)strtol(s, nullptr, 10)`: non-numeric
input yields 0, the digit prefix is converted and trailing characters are
ignored. -/
def atoi (s : String) : Int := toInt32 (strtol10 s.data).1

/-- `StrToInt64` from `stats_log_util` (external to this file):
`strtoll(s.c_str(), nullptr, 10)` with no end-pointer check. -/
def StrToInt64 (s : String) : Int := (strtol10 s.data).1

/-- `StatsService::getUidFromString` (`StatsService.cpp:966`): reject the
empty string, parse with `strtol` base 0, reject trailing characters, reject
values outside the `uid_t` range (via the cast round-trip check in the
source), and finally accept exactly when the build is an eng/userdebug build,
or the caller equals the parsed uid, or the caller is root and the parsed uid
is shell.  Returns (accepted, uid written to the out-parameter). -/
def getUidFromString (engBuild : Bool) (callingUid : Int) (s : String) : Bool × Option Int :=
  match s.data with
  | [] => (false, none)
  | c :: cs =>
    let (longUid, endc) := strtol0 (c :: cs)
    if endc ≠ [] then (false, none)
    else
      let goodUid := toInt32 longUid
      if longUid < 0 ∨ longUid ≠ toUInt32val goodUid then (false, none)
      else
        ((engBuild || decide (callingUid = goodUid) ||
            (decide (callingUid = (AID_ROOT : Nat)) && decide (goodUid = (AID_SHELL : Nat)))),
         some goodUid)

/-- `StatsService::getUidFromArgs` (`StatsService.cpp:962`): apply
`getUidFromString` to the argument at `uidArgIndex`. -/
def getUidFromArgs (engBuild : Bool) (callingUid : Int) (args : List String)
    (uidArgIndex : Nat) : Bool × Option Int :=
  getUidFromString engBuild callingUid (args.getD uidArgIndex "")

/-- "s is a well-formed numeric uid string denoting the value T": `strtol`
consumes all of s, s is non-empty, and T lies in the `uid_t` range. -/
def denotesUid (s : String) (T : Int) : Prop :=
  s.data ≠ [] ∧ strtol0 s.data = (T, []) ∧ 0 ≤ T ∧ T < 2 ^ 32

instance (s : String) (T : Int) : Decidable (denotesUid s T) := by
  unfold denotesUid
  infer_instance

/-- `StatsService::addSubscription` (`StatsService.cpp:1497`): enforce the
trusted-tracing security label, then start the subscription.  The second
component records whether a subscription was started. -/
def addSubscription (callingUid : Nat) (callingSid : Option String) : Status × Bool :=
  let st := checkSid callingUid callingSid kTracedProbesSid
  if st = Status.ok then (Status.ok, true) else (st, false)

/-- `StatsService::removeSubscription` (`StatsService.cpp:1507`): enforce the
trusted-tracing security label, then unsubscribe if the shell subscriber
exists.  The second component records whether an unsubscribe was issued. -/
def removeSubscription (callingUid : Nat) (callingSid : Option String)
    (shellSubscriberExists : Bool) : Status × Bool :=
  let st := checkSid callingUid callingSid kTracedProbesSid
  if st = Status.ok then (Status.ok, shellSubscriberExists) else (st, false)

/-- `StatsService::flushSubscription` (`StatsService.cpp:1516`): enforce the
trusted-tracing security label, then flush if the shell subscriber exists.
The second component records whether a flush was issued. -/
def flushSubscription (callingUid : Nat) (callingSid : Option String)
    (shellSubscriberExists : Bool) : Status × Bool :=
  let st := checkSid callingUid callingSid kTracedProbesSid
  if st = Status.ok then (Status.ok, shellSubscriberExists) else (st, false)

/-- Big-endian 4-byte encoding of a 32-bit value, modelling `htonl` followed
by a 4-byte write. -/
def be32 (n : Nat) : List Nat :=
  [n / 2 ^ 24 % 256, n / 2 ^ 16 % 256, n / 2 ^ 8 % 256, n % 256]

/-- `std::numeric_limits<int32_t>::max()`. -/
def INT32_MAX : Nat := 2147483647

/-- `StatsService::getDataFd` (`StatsService.cpp:1177`), after the identity
check: fetch the report for `ConfigKey(callingUid, key)` (the bytes are the
`reportData` argument here), and either fail with an illegal-state exception
writing nothing, or write the 4-byte big-endian length prefix followed by the
raw report bytes.  Descriptor writes themselves are assumed to succeed (a
failed `WriteFully` is an external I/O fault).  Components: status, bytes
written to the descriptor. -/
def getDataFdWrite (reportData : List Nat) : Status × List Nat :=
  if reportData.length ≥ INT32_MAX then
    (Status.ex EX_ILLEGAL_STATE "Report size is infeasible big.", [])
  else
    (Status.ok, be32 reportData.length ++ reportData)

/-- A log event as far as this layer is concerned: the uid and pid it was
constructed with. -/
structure LogEvent where
  uid : Int
  pid : Int
deriving DecidableEq, Repr

/-- The sentinel event pushed by `stopReadingLogs`:
`LogEvent(/*uid=*/0, /*pid=*/0)`. -/
def sentinelEvent : LogEvent := ⟨0, 0⟩

/-- State of the event queue and the ingestion stop flag. -/
structure QueueState where
  stopRequested : Bool
  queue : List LogEvent
deriving DecidableEq, Repr

/-- `StatsService::stopReadingLogs` (`StatsService.cpp:1532`): set the stop
flag, then push one sentinel event to unblock `waitPop`. -/
def stopReadingLogs (st : QueueState) : QueueState :=
  { stopRequested := true, queue := st.queue ++ [sentinelEvent] }

/-- `StatsService::readLogs` (`StatsService.cpp:245`), run over a finite
trace.  Each trace entry is the stop-flag value observed right after
`waitPop` returns, paired with the popped event (the flag is sampled per
iteration because `stopReadingLogs` runs on another thread).  When the flag
is observed true the loop breaks without dispatching the popped event; when
false the event goes to `StatsLogProcessor::OnLogEvent` and then, if the
shell subscriber exists, to it.  Returns (events dispatched to the
processing engine, events dispatched to the shell subscriber). -/
def readLogsRun (shellSubscriberExists : Bool) :
    List (Bool × LogEvent) → List LogEvent × List LogEvent
  | [] => ([], [])
  | (stopObserved, e) :: rest =>
    if stopObserved then ([], [])
    else
      let (toEngine, toShell) := readLogsRun shellSubscriberExists rest
      (e :: toEngine, if shellSubscriberExists then e :: toShell else toShell)

/-- `StatsService::onStatsdInitCompleted` (`StatsService.cpp:1111`): with a
positive configured delay the thread performs a cancellable wait of at most
`initEventDelaySecs` seconds on the termination flag; a termination request
arriving at `terminationRequestTime` seconds (strictly before the delay
elapses) makes the wait return early and the function returns without
running the deferred action.  Returns whether
`StatsLogProcessor::onStatsdInitCompleted` was invoked. -/
def onStatsdInitCompletedRuns (initEventDelaySecs : Int)
    (terminationRequestTime : Option Nat) : Bool :=
  if 0 < initEventDelaySecs then
    match terminationRequestTime with
    | some t => if (t : Int) < initEventDelaySecs then false else true
    | none => true
  else
    true

/-- One flag-stripping step of `cmd_dump_report` (`StatsService.cpp:734`):
compare the last remaining argument against `flag` by exact string match and
drop it when equal.  Returns (matched, remaining arguments). -/
def stripTrailingFlag (args : List String) (flag : String) : Bool × List String :=
  match args.getLast? with
  | some a => if a = flag then (true, args.dropLast) else (false, args)
  | none => (false, args)

/-- The flag phase of `StatsService::cmd_dump_report` (`StatsService.cpp:734`
to 745): strip `--proto`, then `--include_current_bucket`, then
`--keep_data`, each recognized against the last remaining argument, before
the positional UID/NAME parsing runs on what is left.  Returns
(proto, includeCurrentBucket, eraseData, remaining arguments); `eraseData`
starts true and is cleared by `--keep_data`. -/
def cmd_dump_report_flags (args : List String) : Bool × Bool × Bool × List String :=
  let (proto, args1) := stripTrailingFlag args "--proto"
  let (includeCurrentBucket, args2) := stripTrailingFlag args1 "--include_current_bucket"
  let (keepData, args3) := stripTrailingFlag args2 "--keep_data"
  (proto, includeCurrentBucket, !keepData, args3)

/-- Observable outcome of `cmd_log_app_breadcrumb`: returned `status_t`,
whether the fixed usage block was printed (`print_cmd_help`), whether the
invalid-uid message was printed, and the `AppBreadcrumbReported`
(uid, label, state) event written to statslog, if any. -/
structure BreadcrumbResult where
  ret : Int
  helpPrinted : Bool
  invalidUidMsgPrinted : Bool
  logged : Option (Int × Int × Int)
deriving DecidableEq, Repr

/-- `StatsService::cmd_log_app_breadcrumb` (`StatsService.cpp:836`): with 3
arguments the calling uid is used and label/state are read with `atoi`; with
4 arguments the uid argument goes through `getUidFromArgs` (failure prints
the invalid-uid message); any other argument count fails.  When parsing
succeeded the event is written and `NO_ERROR` returned, otherwise the usage
block is printed and `UNKNOWN_ERROR` returned. -/
def cmd_log_app_breadcrumb (engBuild : Bool) (callingUid : Int) (args : List String) :
    BreadcrumbResult :=
  let argCount := args.length
  if argCount = 3 then
    let label := atoi (args.getD 1 "")
    let state := atoi (args.getD 2 "")
    { ret := NO_ERROR, helpPrinted := false, invalidUidMsgPrinted := false,
      logged := some (callingUid, label, state) }
  else if argCount = 4 then
    let (good, uidOpt) := getUidFromArgs engBuild callingUid args 1
    let label := atoi (args.getD 2 "")
    let state := atoi (args.getD 3 "")
    if good then
      { ret := NO_ERROR, helpPrinted := false, invalidUidMsgPrinted := false,
        logged := some (uidOpt.getD 0, label, state) }
    else
      { ret := UNKNOWN_ERROR, helpPrinted := true, invalidUidMsgPrinted := true, logged := none }
  else
    { ret := UNKNOWN_ERROR, helpPrinted := true, invalidUidMsgPrinted := false, logged := none }

/-- Observable outcome of `cmd_config`: returned `status_t`, whether the
usage block was printed, the fixed error line printed (if any), the
(key, config) installed by `ConfigManager::UpdateConfig` (if any), and the
removal performed (`some none` = remove-all, `some (some k)` = remove k). -/
structure ConfigCmdResult where
  ret : Int
  helpPrinted : Bool
  invalidUidMsgPrinted : Bool
  errLine : Option String
  updated : Option (ConfigKey × StatsdConfigModel)
  removed : Option (Option ConfigKey)
deriving DecidableEq, Repr

/-- `StatsService::cmd_config` (`StatsService.cpp:655`): handles
`config update` and `config remove`.  Argument counts 3 and 4 select the
calling uid or a `getUidFromArgs`-checked uid argument; `config remove` with
no further arguments removes everything.  For `update`, the config id must
parse fully as a decimal number (`strtoll` with end-pointer check), stdin
must be readable (`stdinReadOk`) and the bytes must parse as a
`StatsdConfig` (external protobuf parse abstracted as `stdinParse`); every
failure returns `UNKNOWN_ERROR` with no config installed.  For `remove` with
a name, the id is converted with `StrToInt64` (no end-pointer check). -/
def cmd_config (engBuild : Bool) (callingUid : Int) (args : List String)
    (stdinReadOk : Bool) (stdinParse : Option StatsdConfigModel) : ConfigCmdResult :=
  let argCount := args.length
  if argCount ≥ 2 ∧ (args.getD 1 "" = "update" ∨ args.getD 1 "" = "remove") then
    -- arg parsing phase: (good, uid, name, invalid-uid message printed)
    let parsed : Bool × Int × String × Bool :=
      if argCount = 3 then
        (true, callingUid, args.getD 2 "", false)
      else if argCount = 4 then
        let (good, uidOpt) := getUidFromArgs engBuild callingUid args 2
        (good, uidOpt.getD (-1), args.getD 3 "", !good)
      else if argCount = 2 ∧ args.getD 1 "" = "remove" then
        (true, -1, "", false)
      else
        (false, -1, "", false)
    let (good, uid, name, uidMsg) := parsed
    if !good then
      { ret := UNKNOWN_ERROR, helpPrinted := true, invalidUidMsgPrinted := uidMsg,
        errLine := none, updated := none, removed := none }
    else if args.getD 1 "" = "update" then
      let (configID, endp) := strtol10 name.data
      if endp = name.data ∨ endp ≠ [] then
        { ret := UNKNOWN_ERROR, helpPrinted := false, invalidUidMsgPrinted := uidMsg,
          errLine := some "Error parsing config ID.", updated := none, removed := none }
      else if !stdinReadOk then
        { ret := UNKNOWN_ERROR, helpPrinted := false, invalidUidMsgPrinted := uidMsg,
          errLine := some "Error reading stream for StatsConfig.", updated := none,
          removed := none }
      else
        match stdinParse with
        | none =>
          { ret := UNKNOWN_ERROR, helpPrinted := false, invalidUidMsgPrinted := uidMsg,
            errLine := some "Error parsing proto stream for StatsConfig.", updated := none,
            removed := none }
        | some cfg =>
          { ret := NO_ERROR, helpPrinted := false, invalidUidMsgPrinted := uidMsg,
            errLine := none, updated := some (⟨uid, configID⟩, cfg), removed := none }
    else
      if argCount = 2 then
        { ret := NO_ERROR, helpPrinted := false, invalidUidMsgPrinted := uidMsg,
          errLine := none, updated := none, removed := some none }
      else
        { ret := NO_ERROR, helpPrinted := false, invalidUidMsgPrinted := uidMsg,
          errLine := none, updated := none, removed := some (some ⟨uid, StrToInt64 name⟩) }
  else
    { ret := UNKNOWN_ERROR, helpPrinted := true, invalidUidMsgPrinted := false,
      errLine := none, updated := none, removed := none }

/-! Helper lemmas about the 32-bit casts. -/

theorem toInt32_of_lt {T : Int} (h0 : 0 ≤ T) (h : T < 2 ^ 31) : toInt32 T = T := by
  unfold toInt32
  omega

theorem toInt32_of_ge {T : Int} (h : 2 ^ 31 ≤ T) (h2 : T < 2 ^ 32) :
    toInt32 T = T - 2 ^ 32 := by
  unfold toInt32
  omega

theorem toUInt32val_toInt32 {T : Int} (h0 : 0 ≤ T) (h : T < 2 ^ 32) :
    toUInt32val (toInt32 T) = T := by
  unfold toInt32 toUInt32val
  omega

/-- Claim C1 counterexample: with transport uid 1000 (the system uid),
caller-declared uid 42 and config id 7, `getData` and `removeConfiguration`
operate on `ConfigKey(42, 7)` — the key is built from the caller-declared
uid argument, not from the transport-derived uid 1000 as the claim states. -/
theorem claim_C1_counterexample :
    (getData 1000 7 42).2 = some ⟨42, 7⟩ ∧
    (getData 1000 7 42).2 ≠ some ⟨1000, 7⟩ ∧
    (removeConfiguration 1000 7 42).2 = some ⟨42, 7⟩ ∧
    (removeConfiguration 1000 7 42).2 ≠ some ⟨1000, 7⟩ := by
  refine ⟨by decide, by decide, by decide, by decide⟩

/-- Claim C1 (amended): for every config-keyed RPC call that accepts a
caller-declared uid argument, once the transport-uid admission check has
passed, the `ConfigKey` used for the operation is constructed from the
caller-declared uid argument (the transport-derived uid is used only for the
admission check). -/
theorem claim_C1_amended (transportUid : Nat) (key callingUid : Int)
    (h : checkUid transportUid AID_SYSTEM = Status.ok) :
    (getData transportUid key callingUid).2 = some ⟨callingUid, key⟩ ∧
    (removeConfiguration transportUid key callingUid).2 = some ⟨callingUid, key⟩ ∧
    (setDataFetchOperation transportUid key callingUid).2 = some ⟨callingUid, key⟩ ∧
    (∀ subscriberId : Int,
       (setBroadcastSubscriber transportUid key subscriberId false callingUid).2 =
         some (⟨callingUid, key⟩, subscriberId)) ∧
    (∀ (parse : List Nat → Option StatsdConfigModel) (config : List Nat)
       (installed : ConfigKey × StatsdConfigModel),
       addConfigurationChecked parse callingUid key config = some installed →
       installed.1 = ⟨callingUid, key⟩) := by
  refine ⟨?_, ?_, ?_, ?_, ?_⟩
  · simp [getData, h, getDataChecked_key]
  · simp [removeConfiguration, h]
  · simp [setDataFetchOperation, h]
  · intro subscriberId
    simp [setBroadcastSubscriber, h]
  · intro parse config installed hinst
    unfold addConfigurationChecked at hinst
    split at hinst
    · cases hp : parse config with
      | some cfg => rw [hp] at hinst; cases hinst; rfl
      | none => rw [hp] at hinst; cases hinst
    · cases hinst; rfl

/-- Claim C1 witness: the amended statement at transport uid 1000, config id
7, declared uid 42. -/
theorem claim_C1_witness :
    (getData 1000 7 42).2 = some ⟨42, 7⟩ ∧
    (removeConfiguration 1000 7 42).2 = some ⟨42, 7⟩ ∧
    (setDataFetchOperation 1000 7 42).2 = some ⟨42, 7⟩ := by
  have h := claim_C1_amended 1000 7 42 (by decide)
  exact ⟨h.1, h.2.1, h.2.2.1⟩

/-- Claim C2: `getUidFromString` accepts a well-formed numeric target uid T
for a caller with transport uid C exactly when the eng/userdebug build flag
is set, or C equals T, or C is the root identity and T is the shell
identity.  C is constrained to the value range of real transport uids
(non-negative, below 2^31). -/
theorem claim_C2 (engBuild : Bool) (C : Int) (s : String) (T : Int)
    (hC0 : 0 ≤ C) (hC1 : C < 2 ^ 31) (hs : denotesUid s T) :
    ((getUidFromString engBuild C s).1 = true ↔
      (engBuild = true ∨ C = T ∨ (C = (AID_ROOT : Nat) ∧ T = (AID_SHELL : Nat)))) := by
  obtain ⟨hne, hparse, hT0, hTlt⟩ := hs
  unfold getUidFromString
  cases hdata : s.data with
  | nil => exact absurd hdata hne
  | cons c cs =>
    rw [hdata] at hparse
    dsimp only
    rw [hparse]
    dsimp only
    have hrt : ¬(T < 0 ∨ T ≠ toUInt32val (toInt32 T)) := by
      rw [toUInt32val_toInt32 hT0 hTlt]
      omega
    simp only [ne_eq, not_true_eq_false, if_false, hrt, if_neg, not_false_eq_true,
      Bool.or_eq_true, Bool.and_eq_true, decide_eq_true_eq]
    by_cases hT31 : T < 2 ^ 31
    · rw [toInt32_of_lt hT0 hT31, or_assoc]
    · have hge : 2 ^ 31 ≤ T := by omega
      rw [toInt32_of_ge hge hTlt, or_assoc]
      simp only [AID_ROOT, AID_SHELL, Nat.cast_ofNat, Nat.cast_zero]
      cases engBuild
      · simp only [Bool.false_eq_true, false_or]
        omega
      · simp

/-- Claim C2 witness: with the debug-build flag false, caller uid 1000 and
target "2000" the request is denied; with the flag true and the same inputs
it is allowed. -/
theorem claim_C2_witness :
    (getUidFromString false 1000 "2000").1 = false ∧
    (getUidFromString true 1000 "2000").1 = true := by
  have h1 := claim_C2 false 1000 "2000" 2000 (by decide) (by decide) (by decide)
  have h2 := claim_C2 true 1000 "2000" 2000 (by decide) (by decide) (by decide)
  constructor
  · cases hb : (getUidFromString false 1000 "2000").1 with
    | false => rfl
    | true =>
      exfalso
      have := h1.mp hb
      revert this
      decide
  · exact h2.mpr (Or.inl rfl)

/-- Claim C3 counterexample: a report of exactly `2^31 - 1` bytes is rejected
with the illegal-state exception although its length does not exceed a
32-bit length — it is below `2^32` and not greater than the signed 32-bit
maximum — so "errors exactly when the report exceeds a 32-bit length" fails
at this input. -/
theorem claim_C3_counterexample :
    (getDataFdWrite (List.replicate (2 ^ 31 - 1) 0)).1 =
      Status.ex EX_ILLEGAL_STATE "Report size is infeasible big." ∧
    (List.replicate (2 ^ 31 - 1) (0 : Nat)).length < 2 ^ 32 ∧
    ¬(2 ^ 31 - 1 < (List.replicate (2 ^ 31 - 1) (0 : Nat)).length) := by
  refine ⟨?_, ?_, ?_⟩
  · unfold getDataFdWrite
    rw [List.length_replicate]
    norm_num [INT32_MAX]
  · rw [List.length_replicate]
    norm_num
  · rw [List.length_replicate]
    omega

/-- Claim C3 (amended): `getDataFd` returns the illegal-state exception,
writing nothing to the descriptor, exactly when the report size is at least
`INT32_MAX = 2^31 - 1` (the signed 32-bit maximum, a threshold below the
unsigned 32-bit length capacity); below the threshold it writes a 4-byte
prefix that recomposes big-endian to the report length, followed by the raw
report bytes. -/
theorem claim_C3 (reportData : List Nat) :
    ((getDataFdWrite reportData).1 ≠ Status.ok ↔ INT32_MAX ≤ reportData.length) ∧
    ((getDataFdWrite reportData).1 ≠ Status.ok → (getDataFdWrite reportData).2 = []) ∧
    (INT32_MAX ≤ reportData.length →
      (getDataFdWrite reportData).1 =
        Status.ex EX_ILLEGAL_STATE "Report size is infeasible big.") ∧
    (reportData.length < INT32_MAX →
      (getDataFdWrite reportData).2 = be32 reportData.length ++ reportData ∧
      (be32 reportData.length).length = 4 ∧
      (be32 reportData.length).foldl (fun a b => 256 * a + b) 0 = reportData.length) := by
  unfold getDataFdWrite
  by_cases h : reportData.length ≥ INT32_MAX
  · rw [if_pos h]
    exact ⟨by simp [h], fun _ => rfl, fun _ => rfl, fun hlt => absurd h (by omega)⟩
  · rw [if_neg h]
    refine ⟨by simpa using h, by simp, fun hc => absurd hc h, fun _ => ⟨rfl, rfl, ?_⟩⟩
    unfold be32
    simp only [List.foldl_cons, List.foldl_nil]
    have hlen : reportData.length < 2147483647 := by
      unfold INT32_MAX at h
      omega
    omega

/-- Claim C3 witness: the amended statement at a 3-byte report. -/
theorem claim_C3_witness :
    (getDataFdWrite [7, 8, 9]).2 = [0, 0, 0, 3, 7, 8, 9] ∧
    (getDataFdWrite [7, 8, 9]).1 = Status.ok := by
  have h := (claim_C3 [7, 8, 9]).2.2.2 (by norm_num [INT32_MAX])
  refine ⟨?_, by decide⟩
  rw [h.1]
  decide

/-- Claim C4: for the system-identity RPC methods, a transport caller uid
that is neither the system uid nor root yields a security exception whose
message carries the actual and the expected uid, and the call performs no
operation (no report dumped, no config installed, no precondition marked, no
uid-map update); a system or root transport uid passes the check. -/
theorem claim_C4 (uid : Nat) (h1 : uid ≠ AID_SYSTEM) (h2 : uid ≠ AID_ROOT)
    (key callingUid : Int) (parse : List Nat → Option StatsdConfigModel)
    (config : List Nat) (parseOk : Bool) :
    checkUid uid AID_SYSTEM =
      Status.ex EX_SECURITY (s!"UID {uid} is not expected UID {AID_SYSTEM}") ∧
    getData uid key callingUid = (checkUid uid AID_SYSTEM, none) ∧
    addConfiguration parse uid key config callingUid = (checkUid uid AID_SYSTEM, none) ∧
    removeConfiguration uid key callingUid = (checkUid uid AID_SYSTEM, none) ∧
    bootCompleted uid = (checkUid uid AID_SYSTEM, []) ∧
    informAllUidData uid parseOk = (checkUid uid AID_SYSTEM, false, []) ∧
    (∀ u : Nat, u = AID_SYSTEM ∨ u = AID_ROOT → checkUid u AID_SYSTEM = Status.ok) := by
  have hch : checkUid uid AID_SYSTEM =
      Status.ex EX_SECURITY (s!"UID {uid} is not expected UID {AID_SYSTEM}") := by
    unfold checkUid
    rw [if_neg]
    push_neg
    exact ⟨h1, h2⟩
  refine ⟨hch, ?_, ?_, ?_, ?_, ?_, ?_⟩
  · simp [getData, hch]
  · simp [addConfiguration, hch]
  · simp [removeConfiguration, hch]
  · simp [bootCompleted, hch]
  · simp [informAllUidData, hch]
  · intro u hu
    unfold checkUid
    rw [if_pos hu]

/-- Claim C4 witness: the statement at transport uid 9999 (neither system
nor root), config id 7, declared uid 42, and at passing uids 1000 and 0. -/
theorem claim_C4_witness :
    checkUid 9999 AID_SYSTEM =
      Status.ex EX_SECURITY "UID 9999 is not expected UID 1000" ∧
    getData 9999 7 42 = (checkUid 9999 AID_SYSTEM, none) ∧
    bootCompleted 9999 = (checkUid 9999 AID_SYSTEM, []) ∧
    checkUid 1000 AID_SYSTEM = Status.ok ∧
    checkUid 0 AID_SYSTEM = Status.ok := by
  have h := claim_C4 9999 (by decide) (by decide) 7 42 (fun _ => none) [] true
  exact ⟨h.1, h.2.1, h.2.2.2.2.1,
    h.2.2.2.2.2.2 1000 (Or.inl rfl), h.2.2.2.2.2.2 0 (Or.inr rfl)⟩

/-- Helper: `checkSid` against the trusted tracing label succeeds exactly
when the label matches or the caller is root. -/
theorem checkSid_ok_iff (uid : Nat) (sid : Option String) :
    checkSid uid sid kTracedProbesSid = Status.ok ↔
      (sid = some kTracedProbesSid ∨ uid = AID_ROOT) := by
  unfold checkSid
  by_cases hu : uid = AID_ROOT
  · simp [hu]
  · rw [if_neg hu]
    cases sid with
    | none => simp [hu]
    | some s0 =>
      dsimp only
      by_cases hs : kTracedProbesSid = s0
      · simp [hs, hu]
      · rw [if_neg hs]
        simp only [reduceCtorEq, false_iff, not_or]
        refine ⟨fun he => hs ?_, hu⟩
        injection he with he2
        exact he2.symm

/-- Helper: a failed `checkSid` is a security exception. -/
theorem checkSid_security_of_not_ok (uid : Nat) (sid : Option String)
    (h : checkSid uid sid kTracedProbesSid ≠ Status.ok) :
    (checkSid uid sid kTracedProbesSid).isSecurityError = true := by
  unfold checkSid at h ⊢
  by_cases hu : uid = AID_ROOT
  · simp [hu] at h
  · rw [if_neg hu] at h ⊢
    cases sid with
    | none => simp [Status.isSecurityError]
    | some s0 =>
      dsimp only at h ⊢
      by_cases hs : kTracedProbesSid = s0
      · simp [hs] at h
      · rw [if_neg hs]
        simp [Status.isSecurityError]

/-- Claim C5: `addSubscription`, `removeSubscription` and `flushSubscription`
return a security error exactly when the caller security label, compared by
exact string match, is not the trusted tracing label and the caller uid is
not root; when no security error occurs the call returns ok — no particular
uid other than root is otherwise required. -/
theorem claim_C5 (uid : Nat) (sid : Option String) (sh : Bool) :
    ((addSubscription uid sid).1.isSecurityError = true ↔
      (sid ≠ some kTracedProbesSid ∧ uid ≠ AID_ROOT)) ∧
    ((removeSubscription uid sid sh).1.isSecurityError = true ↔
      (sid ≠ some kTracedProbesSid ∧ uid ≠ AID_ROOT)) ∧
    ((flushSubscription uid sid sh).1.isSecurityError = true ↔
      (sid ≠ some kTracedProbesSid ∧ uid ≠ AID_ROOT)) ∧
    ((addSubscription uid sid).1.isSecurityError = false ↔
      (addSubscription uid sid).1 = Status.ok) := by
  by_cases h : checkSid uid sid kTracedProbesSid = Status.ok
  · have hyes := (checkSid_ok_iff uid sid).mp h
    have hrhs : ¬(sid ≠ some kTracedProbesSid ∧ uid ≠ AID_ROOT) := by
      rcases hyes with h1 | h1 <;> simp [h1]
    simp [addSubscription, removeSubscription, flushSubscription, h,
      Status.isSecurityError, hrhs]
  · have hno : sid ≠ some kTracedProbesSid ∧ uid ≠ AID_ROOT := by
      constructor
      · intro hx
        exact h ((checkSid_ok_iff uid sid).mpr (Or.inl hx))
      · intro hx
        exact h ((checkSid_ok_iff uid sid).mpr (Or.inr hx))
    have hsec := checkSid_security_of_not_ok uid sid h
    simp [addSubscription, removeSubscription, flushSubscription, h, hsec, hno]

/-- Claim C6: whenever the stop flag is observed true right after `waitPop`
returns, the ingestion loop exits without dispatching the popped event — or
anything after it — to the processing engine or to any shell subscriber (the
run over the extended trace equals the run over the prefix before the
stop-observing pop); and the shutdown handshake of `stopReadingLogs` sets
the stop flag and pushes exactly one sentinel event. -/
theorem claim_C6 (sh : Bool) (pre : List (Bool × LogEvent)) (e : LogEvent)
    (rest : List (Bool × LogEvent)) (st : QueueState) :
    readLogsRun sh (pre ++ (true, e) :: rest) = readLogsRun sh pre ∧
    (stopReadingLogs st).stopRequested = true ∧
    (stopReadingLogs st).queue = st.queue ++ [sentinelEvent] := by
  refine ⟨?_, rfl, rfl⟩
  induction pre with
  | nil => simp [readLogsRun]
  | cons p pre ih =>
    obtain ⟨b, x⟩ := p
    cases b with
    | false => simp [readLogsRun, ih]
    | true => simp [readLogsRun]

/-- Claim C7: with the init-event delay configured and a termination request
delivered strictly before the delay elapses, the deferred
`StatsLogProcessor::onStatsdInitCompleted` action never executes; with no
termination request it executes once the (possibly zero) delay has
passed. -/
theorem claim_C7 (initEventDelaySecs : Int) (t : Nat)
    (h : (t : Int) < initEventDelaySecs) :
    onStatsdInitCompletedRuns initEventDelaySecs (some t) = false ∧
    onStatsdInitCompletedRuns initEventDelaySecs none = true := by
  have hpos : 0 < initEventDelaySecs := by omega
  unfold onStatsdInitCompletedRuns
  rw [if_pos hpos, if_pos hpos]
  exact ⟨by dsimp only; rw [if_pos h], rfl⟩

/-- Claim C7 witness: the statement at a 5-second delay with termination
requested after 2 seconds. -/
theorem claim_C7_witness :
    onStatsdInitCompletedRuns 5 (some 2) = false ∧
    onStatsdInitCompletedRuns 5 none = true :=
  claim_C7 5 2 (by decide)

/-- Claim C8: `cmd_dump_report` strips recognized trailing flags in the
order `--proto`, then `--include_current_bucket`, then `--keep_data`, each
by exact string match against the last remaining argument, leaving the
positional arguments for UID/NAME parsing: appending the optional suffix
`[--keep_data] [--include_current_bucket] [--proto]` (in that list order)
to any argument list not itself ending in one of the flags yields exactly
the corresponding flag values and strips the whole suffix. -/
theorem claim_C8 (xs : List String) (l : String) (hlast : xs.getLast? = some l)
    (h1 : l ≠ "--proto") (h2 : l ≠ "--include_current_bucket") (h3 : l ≠ "--keep_data")
    (p i k : Bool) :
    cmd_dump_report_flags
        (xs ++ (if k then ["--keep_data"] else []) ++
          (if i then ["--include_current_bucket"] else []) ++
          (if p then ["--proto"] else [])) =
      (p, i, !k, xs) := by
  have hpi : ("--include_current_bucket" : String) ≠ "--proto" := by decide
  have hpk : ("--keep_data" : String) ≠ "--proto" := by decide
  have hik : ("--keep_data" : String) ≠ "--include_current_bucket" := by decide
  cases p <;> cases i <;> cases k <;>
    simp [cmd_dump_report_flags, stripTrailingFlag, hlast, h1, h2, h3,
      hpi, hpk, hik, List.getLast?_concat, List.dropLast_concat]

/-- Claim C8 witness: the statement on `dump-report 1000 42` followed by all
three flags in the stripped order. -/
theorem claim_C8_witness :
    cmd_dump_report_flags
        ["dump-report", "1000", "42", "--keep_data", "--include_current_bucket", "--proto"] =
      (true, true, false, ["dump-report", "1000", "42"]) := by
  have h := claim_C8 ["dump-report", "1000", "42"] "42" rfl
    (by decide) (by decide) (by decide) true true true
  simpa using h

/-- Claim C9 counterexample: `log-app-breadcrumb abc def` carries non-numeric
values in the numeric LABEL and STATE fields, yet the command prints no usage
block, returns the success code, and logs an `AppBreadcrumbReported(1000, 0, 0)`
event — `atoi` silently coerces the fields to 0 — contradicting "a
non-numeric value in a numeric field causes the fixed usage block to be
printed and a generic non-zero failure code to be returned, with no partial
effect applied (no event logged)". -/
theorem claim_C9_counterexample :
    (cmd_log_app_breadcrumb false 1000 ["log-app-breadcrumb", "abc", "def"]).ret = NO_ERROR ∧
    (cmd_log_app_breadcrumb false 1000 ["log-app-breadcrumb", "abc", "def"]).logged =
      some (1000, 0, 0) ∧
    (cmd_log_app_breadcrumb false 1000 ["log-app-breadcrumb", "abc", "def"]).helpPrinted =
      false := by
  refine ⟨by decide, by decide, by decide⟩

/-- Claim C9 (amended): for the modelled shell subcommands, a malformed
argument count prints the fixed usage block and returns `UNKNOWN_ERROR` with
no partial effect, and a non-numeric value in an end-pointer-checked numeric
field (a UID argument, or the config id of `config update`) prints a fixed
message and returns `UNKNOWN_ERROR` with no partial effect; numeric fields
read with `atoi` (breadcrumb LABEL/STATE) or `StrToInt64` (the
`config remove` id) are instead silently coerced, so they never trigger the
failure path. -/
theorem claim_C9_amended :
    (∀ (engBuild : Bool) (callingUid : Int) (args : List String),
       args.length ≠ 3 → args.length ≠ 4 →
       cmd_log_app_breadcrumb engBuild callingUid args =
         ⟨UNKNOWN_ERROR, true, false, none⟩) ∧
    (∀ (engBuild : Bool) (callingUid : Int) (args : List String),
       args.length = 4 → (getUidFromArgs engBuild callingUid args 1).1 = false →
       cmd_log_app_breadcrumb engBuild callingUid args =
         ⟨UNKNOWN_ERROR, true, true, none⟩) ∧
    (∀ (engBuild : Bool) (callingUid : Int) (args : List String)
       (stdinReadOk : Bool) (stdinParse : Option StatsdConfigModel),
       ¬(args.length ≥ 2 ∧ (args.getD 1 "" = "update" ∨ args.getD 1 "" = "remove")) →
       cmd_config engBuild callingUid args stdinReadOk stdinParse =
         ⟨UNKNOWN_ERROR, true, false, none, none, none⟩) ∧
    (∀ (engBuild : Bool) (callingUid : Int) (name : String)
       (stdinReadOk : Bool) (stdinParse : Option StatsdConfigModel),
       (strtol10 name.data).2 = name.data ∨ (strtol10 name.data).2 ≠ [] →
       cmd_config engBuild callingUid ["config", "update", name] stdinReadOk stdinParse =
         ⟨UNKNOWN_ERROR, false, false, some "Error parsing config ID.", none, none⟩) := by
  refine ⟨?_, ?_, ?_, ?_⟩
  · intro engBuild callingUid args h3 h4
    unfold cmd_log_app_breadcrumb
    rw [if_neg h3, if_neg h4]
  · intro engBuild callingUid args h4 hbad
    unfold cmd_log_app_breadcrumb
    have h3 : args.length ≠ 3 := by omega
    rw [if_neg h3, if_pos h4]
    simp only [hbad]
    rfl
  · intro engBuild callingUid args stdinReadOk stdinParse hshape
    unfold cmd_config
    rw [if_neg hshape]
  · intro engBuild callingUid name stdinReadOk stdinParse hbad
    unfold cmd_config
    rw [if_pos (by simp)]
    simp only [List.length_cons, List.length_nil]
    norm_num
    intro hne hnil
    exact absurd hnil (hbad.resolve_left hne)

/-- Claim C9 witness: the amended statement at a 2-argument breadcrumb call,
a 4-argument breadcrumb call with non-numeric UID, a bare `config` call, and
`config update abc`. -/
theorem claim_C9_witness :
    cmd_log_app_breadcrumb false 1000 ["log-app-breadcrumb", "1"] =
      ⟨UNKNOWN_ERROR, true, false, none⟩ ∧
    cmd_log_app_breadcrumb false 1000 ["log-app-breadcrumb", "abc", "1", "2"] =
      ⟨UNKNOWN_ERROR, true, true, none⟩ ∧
    cmd_config false 1000 ["config"] true none =
      ⟨UNKNOWN_ERROR, true, false, none, none, none⟩ ∧
    cmd_config false 1000 ["config", "update", "abc"] true none =
      ⟨UNKNOWN_ERROR, false, false, some "Error parsing config ID.", none, none⟩ := by
  refine ⟨?_, ?_, ?_, ?_⟩
  · exact claim_C9_amended.1 false 1000 _ (by decide) (by decide)
  · exact claim_C9_amended.2.1 false 1000 _ (by decide) (by decide)
  · exact claim_C9_amended.2.2.1 false 1000 _ true none (by decide)
  · exact claim_C9_amended.2.2.2 false 1000 "abc" true none (by decide)

/-- Claim C10: `addConfiguration` with an empty configuration byte vector
skips parsing, installs the default-constructed configuration under
`ConfigKey(callingUid, key)` and returns ok — whatever the parser would say;
the illegal-argument error is returned, with nothing installed, exactly for
non-empty byte vectors that fail to parse. -/
theorem claim_C10 (parse : List Nat → Option StatsdConfigModel) (key callingUid : Int) :
    addConfiguration parse AID_SYSTEM key [] callingUid =
      (Status.ok, some (⟨callingUid, key⟩, defaultStatsdConfig)) ∧
    (∀ config : List Nat,
       ((addConfiguration parse AID_SYSTEM key config callingUid).1 =
           Status.ex EX_ILLEGAL_ARGUMENT "Could not parse malformatted StatsdConfig." ∧
         (addConfiguration parse AID_SYSTEM key config callingUid).2 = none) ↔
         (config ≠ [] ∧ parse config = none)) := by
  have hch : checkUid AID_SYSTEM AID_SYSTEM = Status.ok := by
    unfold checkUid
    rw [if_pos (Or.inl rfl)]
  constructor
  · simp [addConfiguration, addConfigurationChecked, hch]
  · intro config
    cases config with
    | nil => simp [addConfiguration, addConfigurationChecked, hch]
    | cons b bs =>
      cases hp : parse (b :: bs) with
      | none =>
        simp [addConfiguration, addConfigurationChecked, hch, hp]
      | some cfg =>
        simp [addConfiguration, addConfigurationChecked, hch, hp]

end StatsdModel
